import Mathlib

/-!
Verification of the Ghidra LLDB trace-synchronization client
(`src/Ghidra/Debug/Debugger-agent-lldb/src/main/py/src/ghidralldb/commands.py`).

The Python source is shallowly embedded below.  Python integers become
`Int` (or `Nat` where the source value is an identifier or a byte and is
never negative), Python byte strings become `List Nat`, fallible code
returns `Except String`, and the mutable module-global `STATE` object
becomes an explicit `SessionState` value threaded through the commands.
Calls into the external collaborators (the lldb introspection API, the
`util`/`arch`/`hooks` helper modules and the remote trace store) are
modelled as oracle parameters gathered in a `Host` structure; the trace
store mutations a command would issue are returned as an explicit list
of `Eff` values instead of being sent over the wire.
-/

namespace GhidraLldb

/-- Mirrors `PAGE_SIZE = 4096`. -/
def PAGE_SIZE : Int := 4096

/-- Mirrors `quantize_pages(start, end)`:
`(start // PAGE_SIZE * PAGE_SIZE, (end+PAGE_SIZE-1) // PAGE_SIZE*PAGE_SIZE)`.
Python `//` is floor division, which is `Int.fdiv`. -/
def quantize_pages (start end' : Int) : Int × Int :=
  (Int.fdiv start PAGE_SIZE * PAGE_SIZE,
   Int.fdiv (end' + PAGE_SIZE - 1) PAGE_SIZE * PAGE_SIZE)

/-- Range actually used by `put_bytes`: the body runs
`if pages: start, end = quantize_pages(start, end)` first. -/
def effRange (pages : Bool) (start end' : Int) : Int × Int :=
  if pages then quantize_pages start end' else (start, end')

/-- Tagged values written into the object tree by `set_value` calls.
Only the shapes the commands below actually write are enumerated. -/
inductive Val where
  | str (s : String)
  | int (i : Int)
  | bool (b : Bool)
  | rng (space : String) (offset : Int) (len : Int)
  | addr (base space : String) (offset : Int)
  | strList (l : List String)
  | objRef (path : String)
  deriving DecidableEq, Repr

/-- Mutations a command issues against the remote trace store, in
submission order.  `readMem` records the one read of target memory that
`put_bytes` performs (`proc.ReadMemory`). -/
inductive Eff where
  | readMem (start len : Int)
  | createOverlaySpace (base space : String)
  | putBytes (space : String) (offset : Int) (len : Nat)
  | setMemoryState (space : String) (offset len : Int) (state : String)
  | createObj (path : String)
  | insertObj (path : String)
  | setValue (path key : String) (v : Val)
  | retainValues (path : String) (keys : List String) (kinds : String)
  | putRegisters (space : String) (values : List (String × List Nat))
  | deleteRegisters (space : String) (names : List String)
  | removeObj (path : String)
  deriving DecidableEq, Repr

/-! ## Session state (the `State` class, lines 96-142) -/

/-- Mirrors the module-global `State` object: the optional connection
(`client`), trace and transaction handles.  Each handle is a single
optional slot, so at most one of each is live at a time by construction. -/
structure SessionState where
  client : Option Unit
  trace : Option Unit
  tx : Option Unit
  deriving DecidableEq, Repr, Fintype

/-- Mirrors `State.require_client`. -/
def require_client (s : SessionState) : Except String Unit :=
  if s.client.isSome then .ok () else .error "Not connected"

/-- Mirrors `State.require_no_client`. -/
def require_no_client (s : SessionState) : Except String Unit :=
  if s.client.isSome then .error "Already connected" else .ok ()

/-- Mirrors `State.require_trace`. -/
def require_trace (s : SessionState) : Except String Unit :=
  if s.trace.isSome then .ok () else .error "No trace active"

/-- Mirrors `State.require_no_trace`. -/
def require_no_trace (s : SessionState) : Except String Unit :=
  if s.trace.isSome then .error "Trace already started" else .ok ()

/-- Mirrors `State.require_tx`: first `require_trace`, then the
transaction check. -/
def require_tx (s : SessionState) : Except String Unit := do
  let _ ← require_trace s
  if s.tx.isSome then .ok () else .error "No transaction"

/-- Mirrors `State.require_no_tx`. -/
def require_no_tx (s : SessionState) : Except String Unit :=
  if s.tx.isSome then .error "Transaction already started" else .ok ()

/-- Mirrors `State.reset_tx`. -/
def reset_tx (s : SessionState) : SessionState :=
  { s with tx := none }

/-- Mirrors `State.reset_trace`: clears the trace and cascades into
`reset_tx` (the call to `util.set_convenience_variable` is an external
side effect outside the session state). -/
def reset_trace (s : SessionState) : SessionState :=
  reset_tx { s with trace := none }

/-- Mirrors `State.reset_client`: clears the connection and cascades
into `reset_trace`. -/
def reset_client (s : SessionState) : SessionState :=
  reset_trace { s with client := none }

/-! ## Host oracles -/

/-- Result of `trace.extra.require_mm().map(proc, offset)`: Ghidra base
space name plus the mapped address (space name and offset).  The memory
mapper lives in the external `arch` module. -/
structure MappedAddr where
  base : String
  space : String
  offset : Int
  deriving DecidableEq, Repr

/-- Mirrors lldb's `SBData` as consumed by the codec: the reported byte
order constant and the raw bytes (`data.uint8s`). -/
structure SBDataM where
  byte_order : Nat
  uint8s : List Nat
  deriving DecidableEq, Repr

/-- Register child of a bank `SBValue`: its name, raw data and
human-friendly display string. -/
structure RegM where
  name : String
  data : SBDataM
  display : String
  deriving DecidableEq, Repr

/-- Register bank (lldb puts each full bank in one `SBValue` with one
child per register). -/
structure BankM where
  name : String
  regs : List RegM
  deriving DecidableEq, Repr

/-- Memory region descriptor as supplied by `util.REGION_INFO_READER`.
The Python attribute `end` is called `stop` here (`end` is a Lean
keyword). -/
structure RegionM where
  start : Nat
  stop : Nat
  perms : Option String
  offset : Nat
  objfile : String
  deriving DecidableEq, Repr

/-- Oracle bundle for the external collaborators: the inspected process
(`util.get_process()` and friends), the lldb target, the architecture
mappers and the region reader.  Each field models one query the
commands make. -/
structure Host where
  pid : Nat
  procRunning : Bool
  selectedThread : Option Nat
  frameId : Nat
  banks : List BankM
  rmapName : String → String
  readMem : Int → Int → Option (List Nat)
  mmap : Int → MappedAddr
  numModules : Nat
  probeOk : Bool
  getRegions : Option (List RegionM)
  arch : String
  osabi : String
  endian : String

/-- Concrete host fixture for evaluating the commands on explicit
inputs: no regions, no modules, thread 3 selected, every memory read
failing. -/
def sampleHost : Host :=
  { pid := 7, procRunning := false, selectedThread := some 3, frameId := 0,
    banks := [], rmapName := id, readMem := fun _ _ => none,
    mmap := fun o => ⟨"ram", "ram", o⟩, numModules := 0, probeOk := false,
    getRegions := none, arch := "x86_64", osabi := "linux",
    endian := "little" }

/-! ## Path addressing (the `*_PATTERN` constants, lines 47-77)

Python builds paths with `str.format`, rendering the numeric
identifiers (process id, thread id, frame level, ...) in decimal and the
region start in zero-padded lowercase hex.  The rendering is embedded
with an explicit fuel argument so that it is structurally recursive. -/

/-- Decimal digit character: `Char.ofNat 48` is `0`. -/
def decChar (d : Nat) : Char := Char.ofNat (48 + d)

/-- Big-endian decimal digits of a positive number, fuel-recursive. -/
def decReprAux : Nat → Nat → List Char
  | 0, _ => []
  | fuel + 1, n =>
    if n = 0 then [] else decReprAux fuel (n / 10) ++ [decChar (n % 10)]

/-- Decimal rendering of a natural number, as Python's `format` does it. -/
def decRepr (n : Nat) : List Char :=
  if n = 0 then ['0'] else decReprAux (n + 1) n

/-- String form of `decRepr`. -/
def decStr (n : Nat) : String := ⟨decRepr n⟩

/-- Reads a big-endian decimal digit string back into a number; used as
a left inverse of `decRepr` when proving path injectivity. -/
def decVal (cs : List Char) : Nat :=
  cs.foldl (fun acc c => 10 * acc + (c.toNat - 48)) 0

/-- Decimal digit characters, used to show that the bracketed numeric
path keys cannot collide. -/
def IsDigitCh (c : Char) : Prop := 48 ≤ c.toNat ∧ c.toNat ≤ 57

instance (c : Char) : Decidable (IsDigitCh c) := by
  unfold IsDigitCh
  infer_instance

/-- Lowercase hex digit character. -/
def hexChar (d : Nat) : Char :=
  if d < 10 then Char.ofNat (48 + d) else Char.ofNat (87 + d)

/-- Big-endian lowercase hex digits of a positive number. -/
def hexReprAux : Nat → Nat → List Char
  | 0, _ => []
  | fuel + 1, n =>
    if n = 0 then [] else hexReprAux fuel (n / 16) ++ [hexChar (n % 16)]

/-- Python `hex(n)` for a nonnegative `n`: `0x` plus lowercase digits. -/
def pyHex (n : Nat) : String :=
  "0x" ++ (if n = 0 then "0" else String.mk (hexReprAux (n + 1) n))

/-- Python `{n:08x}`: lowercase hex, zero-padded to at least 8 digits. -/
def hex08 (n : Nat) : String :=
  let ds := if n = 0 then ['0'] else hexReprAux (n + 1) n
  ⟨List.replicate (8 - ds.length) '0' ++ ds⟩

/-- Mirrors `PROCESSES_PATH = 'Processes'`. -/
def PROCESSES_PATH : String := "Processes"

/-- Mirrors `AVAILABLES_PATH = 'Available'`. -/
def AVAILABLES_PATH : String := "Available"

/-- Mirrors `PROCESS_KEY_PATTERN.format(procnum=procnum)`. -/
def processKey (procnum : Nat) : String := "[" ++ decStr procnum ++ "]"

/-- Mirrors `PROCESS_PATTERN.format(procnum=procnum)`. -/
def processPath (procnum : Nat) : String := PROCESSES_PATH ++ processKey procnum

/-- Mirrors `THREAD_KEY_PATTERN.format(tnum=tnum)`. -/
def threadKey (tnum : Nat) : String := "[" ++ decStr tnum ++ "]"

/-- Mirrors `THREADS_PATTERN.format(procnum=procnum)`. -/
def threadsPath (procnum : Nat) : String := processPath procnum ++ ".Threads"

/-- Mirrors `THREAD_PATTERN.format(procnum=procnum, tnum=tnum)`. -/
def threadPath (procnum tnum : Nat) : String :=
  threadsPath procnum ++ threadKey tnum

/-- Mirrors `STACK_PATTERN.format(procnum=procnum, tnum=tnum)`. -/
def stackPath (procnum tnum : Nat) : String :=
  threadPath procnum tnum ++ ".Stack"

/-- Mirrors `FRAME_KEY_PATTERN.format(level=level)`. -/
def frameKey (level : Nat) : String := "[" ++ decStr level ++ "]"

/-- Mirrors `FRAME_PATTERN.format(procnum=procnum, tnum=tnum, level=level)`. -/
def framePath (procnum tnum level : Nat) : String :=
  stackPath procnum tnum ++ frameKey level

/-- Mirrors `REGS_PATTERN.format(...)`. -/
def regsPath (procnum tnum level : Nat) : String :=
  framePath procnum tnum level ++ ".Registers"

/-- Mirrors `BANK_PATTERN.format(...)`. -/
def bankPath (procnum tnum level : Nat) (bank : String) : String :=
  regsPath procnum tnum level ++ "." ++ bank

/-- Mirrors `MEMORY_PATTERN.format(procnum=procnum)`. -/
def memoryPath (procnum : Nat) : String := processPath procnum ++ ".Memory"

/-- Mirrors `REGION_KEY_PATTERN.format(start=start)` (`[{start:08x}]`). -/
def regionKey (start : Nat) : String := "[" ++ hex08 start ++ "]"

/-- Mirrors `REGION_PATTERN.format(procnum=procnum, start=start)`. -/
def regionPath (procnum start : Nat) : String :=
  memoryPath procnum ++ regionKey start

/-- Mirrors `ENV_PATTERN.format(procnum=procnum)`. -/
def envPath (procnum : Nat) : String := processPath procnum ++ ".Environment"

/-! ## Byte-order codec (lines 1071-1091) -/

/-- External lldb byte-order constant (`lldb.eByteOrderInvalid`). -/
def lldb_eByteOrderInvalid : Nat := 0

/-- External lldb byte-order constant (`lldb.eByteOrderBig`). -/
def lldb_eByteOrderBig : Nat := 1

/-- External lldb byte-order constant (`lldb.eByteOrderPDP`). -/
def lldb_eByteOrderPDP : Nat := 2

/-- External lldb byte-order constant (`lldb.eByteOrderLittle`). -/
def lldb_eByteOrderLittle : Nat := 4

/-- The two byte orders `get_byte_order` can return. -/
inductive ByteOrder where
  | big
  | little
  deriving DecidableEq, Repr

/-- Mirrors `get_byte_order(order)`: big and little are supported, the
legacy PDP order and anything unrecognized are rejected. -/
def get_byte_order (order : Nat) : Except String ByteOrder :=
  if order = lldb_eByteOrderBig then .ok .big
  else if order = lldb_eByteOrderLittle then .ok .little
  else if order = lldb_eByteOrderPDP then .error "PDP byte order unsupported"
  else .error "Unrecognized order"

/-- Mirrors `data_to_reg_bytes(data)`: canonicalize a register's bytes
to big-endian, reversing the byte sequence when the source order is
little-endian. -/
def data_to_reg_bytes (data : SBDataM) : Except String (List Nat) := do
  let order ← get_byte_order data.byte_order
  if order = .little then
    return data.uint8s.reverse
  return data.uint8s

/-! ## put_bytes and the putmem family (lines 643-822) -/

/-- Mirrors `put_bytes(start, end, result, pages)`.  Returns the list of
effects the call performs; an error raises before any effect is flushed.
Note the order in the source: `require_trace`, optional quantization,
`get_process` (pure), the early return on an empty range, and only then
the `proc.ReadMemory` call followed by mapping and the trace write. -/
def put_bytes (h : Host) (s : SessionState) (start end' : Int)
    (pages : Bool) : Except String (List Eff) := do
  let _ ← require_trace s
  let (start, end') := effRange pages start end'
  if end' - start ≤ 0 then
    return []
  match h.readMem start (end' - start) with
  | some buf =>
    let m := h.mmap start
    let ov := if m.base ≠ m.space then [Eff.createOverlaySpace m.base m.space] else []
    return Eff.readMem start (end' - start) :: ov ++ [Eff.putBytes m.space m.offset buf.length]
  | none => .error "Cannot read memory"

/-- Mirrors `eval_address(address)`: `util.parse_and_eval` is the
external expression evaluator, passed in as the oracle `pe`. -/
def eval_address (pe : String → Except String Int) (address : String) :
    Except String Int :=
  match pe address with
  | .ok v => .ok v
  | .error e => .error ("Cannot convert '" ++ address ++ "' to address: " ++ e)

/-- Mirrors `eval_range(address, length)`. -/
def eval_range (pe : String → Except String Int) (address length : String) :
    Except String (Int × Int) := do
  let start ← eval_address pe address
  match pe length with
  | .ok l => .ok (start, start + l)
  | .error e => .error ("Cannot convert '" ++ length ++ "' to length: " ++ e)

/-- Mirrors `putmem(address, length, result, pages)`. -/
def putmem (pe : String → Except String Int) (h : Host) (s : SessionState)
    (address length : String) (pages : Bool) : Except String (List Eff) := do
  let (start, end') ← eval_range pe address length
  put_bytes h s start end' pages

/-- Mirrors the `ghidra trace putmem` command (lines 700-728): the
argument ladder runs first (`ev` models `util.get_eval(args[2]).unsigned`
for the optional PAGES argument), then `STATE.require_tx()`, then the
body. -/
def ghidra_trace_putmem (pe : String → Except String Int)
    (ev : String → Except String Int) (h : Host) (s : SessionState)
    (args : List String) : Except String (List Eff) := do
  let (address, length, pages) ←
    match args with
    | [a, l] => pure (a, l, true)
    | [a, l, p] => do
      let v ← ev p
      pure (a, l, v != 0)
    | _ => .error "Usage: ghidra trace putmem ADDRESS LENGTH [PAGES]"
  let _ ← require_tx s
  putmem pe h s address length pages

/-- Result of evaluating a putval expression: mirrors the parts of an
lldb `SBValue` that `ghidra_trace_putval` reads (`value.addr` validity,
`int(address)` and `value.size`). -/
structure PutvalValue where
  addrValid : Bool
  addrInt : Int
  size : Int
  deriving DecidableEq, Repr

/-- Mirrors the `ghidra trace putval` command (lines 732-773) up to its
final call; the returned triple is exactly the `(start, end, pages)`
arguments it hands to `put_bytes`.  With two arguments the source reads
`args[2]`, which does not exist, so that path raises `IndexError` before
anything else happens. -/
def ghidra_trace_putval (evv : String → Except String PutvalValue)
    (s : SessionState) (args : List String) :
    Except String (Int × Int × Bool) := do
  let (expression, pages) ←
    match args with
    | [e] => pure (e, true)
    | [_, _] => .error "IndexError: list index out of range"
    | _ => .error "Usage: ghidra trace putval EXPRESSION [PAGES]"
  let _ ← require_tx s
  let value ←
    match evv expression with
    | .ok v => pure v
    | .error e => .error ("Could not evaluate " ++ expression ++ ": " ++ e)
  if !value.addrValid then
    .error ("Expression " ++ expression ++ " does not have an address")
  else
    let start := value.addrInt
    let end' := start + start + value.size
    return (start, end', pages)

/-- Mirrors `trace.validate_state(state)` of the ghidratrace client
library.  Modelled from the spec: `set-memory-state` takes "one of a
closed set of states: known/unknown/error". -/
def validate_state (state : String) : Except String Unit :=
  if state = "known" ∨ state = "unknown" ∨ state = "error" then .ok ()
  else .error ("Invalid memory state: " ++ state)

/-- Mirrors `putmem_state(address, length, state, pages)`. -/
def putmem_state (pe : String → Except String Int) (h : Host)
    (s : SessionState) (address length state : String) (pages : Bool) :
    Except String (List Eff) := do
  let _ ← require_trace s
  let _ ← validate_state state
  let (start, end') ← eval_range pe address length
  let (start, end') := if pages then quantize_pages start end' else (start, end')
  let m := h.mmap start
  let ov := if m.base ≠ m.space then [Eff.createOverlaySpace m.base m.space] else []
  return ov ++ [Eff.setMemoryState m.space m.offset (end' - start) state]

/-- Mirrors the argument ladder of `ghidra trace putmem-state`
(lines 806-819).  Note the source computes the pages flag of the
four-argument form from `args[2]` (the STATE string), not `args[3]`. -/
def putmem_state_args (ev : String → Except String Int)
    (args : List String) : Except String (String × String × String × Bool) :=
  match args with
  | [a, l, st] => pure (a, l, st, true)
  | [a, l, st, _] => do
    let v ← ev st
    pure (a, l, st, v != 0)
  | _ => .error "Usage: ghidra trace putmem ADDRESS LENGTH STATE [PAGES]"

/-- Mirrors the `ghidra trace putmem-state` command (lines 790-822). -/
def ghidra_trace_putmem_state (pe : String → Except String Int)
    (ev : String → Except String Int) (h : Host) (s : SessionState)
    (args : List String) : Except String (List Eff) := do
  let (address, length, state, pages) ← putmem_state_args ev args
  let _ ← require_tx s
  putmem_state pe h s address length state pages

/-! ## Session lifecycle commands (lines 269-601)

Each session command mutates the global `STATE`; here it maps the
session state to a new state plus an optional error message.  A Python
exception raised partway through a command leaves the mutations already
made in place, so a command that fails after assigning a field returns
the partially updated state together with the error.  Boolean oracle
arguments stand for the external calls that can fail (socket connect,
`create_trace`, reading `schema.xml`, `start_tx`, `commit`, `abort`,
`close`). -/

/-- Mirrors `ghidra_trace_connect` (argument splitting and the socket
address parse are folded into `argsOk`; `sockOk` is the socket connect
plus `Client` construction). -/
def ghidra_trace_connect (argsOk sockOk : Bool) (s : SessionState) :
    SessionState × Option String :=
  if s.client.isSome then (s, some "Already connected")
  else if !argsOk then (s, some "Usage: ghidra trace connect ADDRESS")
  else if !sockOk then (s, some "port must be numeric")
  else ({ s with client := some () }, none)

/-- Mirrors `ghidra_trace_listen`: the address ladder runs before
`require_no_client`. -/
def ghidra_trace_listen (argsOk sockOk : Bool) (s : SessionState) :
    SessionState × Option String :=
  if !argsOk then (s, some "Usage: ghidra trace listen [ADDRESS]")
  else if s.client.isSome then (s, some "Already connected")
  else if !sockOk then (s, some "PORT must be numeric")
  else ({ s with client := some () }, none)

/-- Mirrors `ghidra_trace_disconnect`: `require_client().close()` then
`reset_client()`; a failing close leaves the state untouched. -/
def ghidra_trace_disconnect (argsOk closeOk : Bool) (s : SessionState) :
    SessionState × Option String :=
  if !argsOk then (s, some "Usage: ghidra trace disconnect")
  else if s.client.isNone then (s, some "Not connected")
  else if !closeOk then (s, some "close failed")
  else (reset_client s, none)

/-- Mirrors `start_trace(name)`: `create_trace` assigns `STATE.trace`,
after which the schema file is read (which can fail, leaving the trace
assigned), the root object is created inside a scoped transaction that
never touches `STATE.tx`, and the recording flag is set. -/
def start_trace (createOk schemaOk : Bool) (s : SessionState) :
    SessionState × Option String :=
  if !createOk then (s, some "create_trace failed")
  else
    let s1 := { s with trace := some () }
    if !schemaOk then (s1, some "cannot locate schema.xml")
    else (s1, none)

/-- Mirrors `ghidra_trace_start`. -/
def ghidra_trace_start (argsOk createOk schemaOk : Bool) (s : SessionState) :
    SessionState × Option String :=
  if !argsOk then (s, some "Usage: ghidra trace start [NAME]")
  else if s.client.isNone then (s, some "Not connected")
  else if s.trace.isSome then (s, some "Trace already started")
  else start_trace createOk schemaOk s

/-- Mirrors `ghidra_trace_stop`. -/
def ghidra_trace_stop (argsOk closeOk : Bool) (s : SessionState) :
    SessionState × Option String :=
  if !argsOk then (s, some "Usage: ghidra trace stop")
  else if s.trace.isNone then (s, some "No trace active")
  else if !closeOk then (s, some "close failed")
  else (reset_trace s, none)

/-- Mirrors `ghidra_trace_restart`: closes and resets any open trace,
then starts a fresh one. -/
def ghidra_trace_restart (argsOk closeOk createOk schemaOk : Bool)
    (s : SessionState) : SessionState × Option String :=
  if !argsOk then (s, some "Usage: ghidra trace restart [NAME]")
  else if s.client.isNone then (s, some "Not connected")
  else if s.trace.isSome then
    if !closeOk then (s, some "close failed")
    else start_trace createOk schemaOk (reset_trace s)
  else start_trace createOk schemaOk s

/-- Mirrors `ghidra_trace_txstart`: argument check, `require_no_tx`,
then `STATE.require_trace().start_tx(...)` assigns the transaction. -/
def ghidra_trace_txstart (argsOk startOk : Bool) (s : SessionState) :
    SessionState × Option String :=
  if !argsOk then (s, some "Usage: ghidra trace tx-start DESCRIPTION")
  else if s.tx.isSome then (s, some "Transaction already started")
  else if s.trace.isNone then (s, some "No trace active")
  else if !startOk then (s, some "start_tx failed")
  else ({ s with tx := some () }, none)

/-- Mirrors `ghidra_trace_txcommit`: `require_tx`, commit, `reset_tx`. -/
def ghidra_trace_txcommit (argsOk commitOk : Bool) (s : SessionState) :
    SessionState × Option String :=
  if !argsOk then (s, some "Usage: ghidra trace tx-commit")
  else if s.trace.isNone then (s, some "No trace active")
  else if s.tx.isNone then (s, some "No transaction")
  else if !commitOk then (s, some "commit failed")
  else (reset_tx s, none)

/-- Mirrors `ghidra_trace_txabort`: `require_tx`, abort, `reset_tx`. -/
def ghidra_trace_txabort (argsOk abortOk : Bool) (s : SessionState) :
    SessionState × Option String :=
  if !argsOk then (s, some "Usage: ghidra trace tx-abort")
  else if s.trace.isNone then (s, some "No trace active")
  else if s.tx.isNone then (s, some "No transaction")
  else if !abortOk then (s, some "abort failed")
  else (reset_tx s, none)

/-- Mirrors entering `open_tracked_tx` (used by `ghidra trace
tx-open`): `STATE.require_trace().open_tx(...)` then `STATE.tx = tx`. -/
def open_tracked_tx_enter (openOk : Bool) (s : SessionState) :
    SessionState × Option String :=
  if s.trace.isNone then (s, some "No trace active")
  else if !openOk then (s, some "open_tx failed")
  else ({ s with tx := some () }, none)

/-- Mirrors leaving `open_tracked_tx`: `STATE.reset_tx()`. -/
def open_tracked_tx_exit (s : SessionState) : SessionState × Option String :=
  (reset_tx s, none)

/-- One session operation together with the outcomes of its external
calls, used to quantify over all session operations at once. -/
inductive SessionOp where
  | connect (argsOk sockOk : Bool)
  | listen (argsOk sockOk : Bool)
  | disconnect (argsOk closeOk : Bool)
  | start (argsOk createOk schemaOk : Bool)
  | stop (argsOk closeOk : Bool)
  | restart (argsOk closeOk createOk schemaOk : Bool)
  | txStart (argsOk startOk : Bool)
  | txCommit (argsOk commitOk : Bool)
  | txAbort (argsOk abortOk : Bool)
  | txOpenEnter (openOk : Bool)
  | txOpenExit
  deriving DecidableEq, Repr, Fintype

/-- Dispatches a session operation to the command it names. -/
def session_step : SessionOp → SessionState → SessionState × Option String
  | .connect a b => ghidra_trace_connect a b
  | .listen a b => ghidra_trace_listen a b
  | .disconnect a b => ghidra_trace_disconnect a b
  | .start a b c => ghidra_trace_start a b c
  | .stop a b => ghidra_trace_stop a b
  | .restart a b c d => ghidra_trace_restart a b c d
  | .txStart a b => ghidra_trace_txstart a b
  | .txCommit a b => ghidra_trace_txcommit a b
  | .txAbort a b => ghidra_trace_txabort a b
  | .txOpenEnter a => open_tracked_tx_enter a
  | .txOpenExit => open_tracked_tx_exit

/-- The strict-nesting invariant of the session state: a live
transaction requires a live trace, and a live trace requires a live
connection. -/
def SessionInv (s : SessionState) : Prop :=
  (s.tx.isSome → s.trace.isSome) ∧ (s.trace.isSome → s.client.isSome)

instance (s : SessionState) : Decidable (SessionInv s) := by
  unfold SessionInv
  infer_instance

/-! ## Register, object and synchronizer commands -/

/-- Mirrors `putreg(frame, bank)` (lines 856-879) for one bank:
declares the register overlay space, creates and inserts the frame's
`Registers` object and the bank object, maps every register value
through `data_to_reg_bytes` and the register mapper, records the
human-friendly display strings, and finally issues `put_registers`. -/
def putreg_bank (h : Host) (bank : BankM) : Except String (List Eff) := do
  let tnum := (h.selectedThread).getD 0
  let space := regsPath h.pid tnum h.frameId
  let bank_path := bankPath h.pid tnum h.frameId bank.name
  let values ← bank.regs.mapM fun r => do
    let bs ← data_to_reg_bytes r.data
    pure (h.rmapName r.name, bs)
  return [Eff.createOverlaySpace "register" space,
          Eff.createObj space, Eff.insertObj space,
          Eff.createObj bank_path, Eff.insertObj bank_path]
    ++ bank.regs.map (fun r => Eff.setValue bank_path r.name (.str r.display))
    ++ [Eff.putRegisters space values]

/-- Mirrors the `ghidra trace putreg` command (lines 882-913): this one
calls `STATE.require_tx()` before parsing its arguments. -/
def ghidra_trace_putreg (h : Host) (s : SessionState) (args : List String) :
    Except String (List Eff) := do
  let _ ← require_tx s
  let group ←
    match args with
    | [] => pure "all"
    | [g] => pure g
    | _ => .error "Usage: ghidra trace putreg [GROUP]"
  if group ≠ "all" then
    match h.banks.find? (fun b => b.name = group) with
    | some bank => putreg_bank h bank
    | none => putreg_bank h ⟨"None", []⟩
  else do
    let effs ← h.banks.mapM (putreg_bank h)
    return effs.flatten

/-- Mirrors the `ghidra trace create-obj` command (lines 965-989):
`trace.create_object(path)` followed by `obj.insert()`. -/
def ghidra_trace_create_obj (s : SessionState) (args : List String) :
    Except String (List Eff) := do
  let path ←
    match args with
    | [p] => pure p
    | _ => .error "Usage: ghidra trace create-obj PATH"
  let _ ← require_tx s
  return [Eff.createObj path, Eff.insertObj path]

/-- Mirrors the `ghidra trace set-value` command (lines 1189-1241).
The expression evaluation plus value conversion (`eval_value`, which
inspects external lldb `SBValue` objects) is the oracle `evv`,
returning the converted value and the possibly inferred schema. -/
def ghidra_trace_set_value (evv : String → Option String → Except String (Val × Option String))
    (s : SessionState) (args : List String) : Except String (List Eff) := do
  let (path, key, value, schema) ←
    match args with
    | [p, k, v] => pure (p, k, v, (none : Option String))
    | [p, k, v, sc] => pure (p, k, v, some sc)
    | _ => .error "Usage: ghidra trace set-value PATH KEY VALUE [SCHEMA]"
  let _ ← require_tx s
  if schema = some "OBJECT" then
    return [Eff.setValue path key (.objRef value)]
  else do
    let (val, schema') ← evv value schema
    let pre :=
      match schema', val with
      | some "ADDRESS", .addr base space _ =>
        if base ≠ space then [Eff.createOverlaySpace base space] else []
      | _, _ => []
    return pre ++ [Eff.setValue path key val]

/-- Mirrors the `ghidra trace retain-values` command (lines 1258-1284).
Option parsing is done by the external `optparse` library; `kinds` is
its result (default `elements`) and `args` the positional remainder. -/
def ghidra_trace_retain_values (kinds : String) (s : SessionState)
    (args : List String) : Except String (List Eff) := do
  let (path, keys) ←
    match args with
    | [] => .error "Usage: ghidra trace retain-values [OPTIONS] PATH [KEYS...]"
    | p :: ks => pure (p, ks)
  let _ ← require_tx s
  return [Eff.retainValues path keys kinds]

/-- Mirrors `compute_proc_state(proc)`. -/
def compute_proc_state (running : Bool) : String :=
  if running then "RUNNING" else "STOPPED"

/-- Mirrors `put_processes()` (lines 1439-1449). -/
def put_processes (h : Host) (s : SessionState) : Except String (List Eff) := do
  let _ ← require_trace s
  let ipath := processPath h.pid
  return [Eff.createObj ipath,
          Eff.setValue ipath "State" (.str (compute_proc_state h.procRunning)),
          Eff.insertObj ipath,
          Eff.retainValues PROCESSES_PATH [processKey h.pid] "elements"]

/-- Mirrors the `ghidra trace put-processes` command. -/
def ghidra_trace_put_processes (h : Host) (s : SessionState)
    (args : List String) : Except String (List Eff) := do
  if args.length ≠ 0 then
    .error "Usage: ghidra trace put-processes"
  else do
    let _ ← require_tx s
    put_processes h s

/-- Mirrors `put_environment()` (lines 1648-1656). -/
def put_environment (h : Host) (s : SessionState) : Except String (List Eff) := do
  let _ ← require_trace s
  let epath := envPath h.pid
  return [Eff.createObj epath,
          Eff.setValue epath "Debugger" (.str "lldb"),
          Eff.setValue epath "Arch" (.str h.arch),
          Eff.setValue epath "OS" (.str h.osabi),
          Eff.setValue epath "Endian" (.str h.endian),
          Eff.insertObj epath]

/-- Mirrors the `ghidra trace put-environment` command. -/
def ghidra_trace_put_environment (h : Host) (s : SessionState)
    (args : List String) : Except String (List Eff) := do
  if args.length ≠ 0 then
    .error "Usage: ghidra trace put-environment"
  else do
    let _ ← require_tx s
    put_environment h s

/-! ## Regions synchronizer (lines 1677-1748) -/

/-- Mirrors `should_query_regions()`: a target with no modules loaded
genuinely does not support regions (query anyway and fall back); with
modules, probe address 0 to detect the LLDB gdb-remote defect. -/
def should_query_regions (h : Host) : Bool :=
  if h.numModules = 0 then true else h.probeOk

/-- Mirrors `util.REGION_INFO_READER.full_mem()`.  Modelled from the
spec: the reader lives in the external `util` module, and the spec says
a "single full-address-space region is substituted as a fallback", so
this region covers the whole 64-bit address space. -/
def full_mem : RegionM :=
  { start := 0, stop := 2 ^ 64, perms := none, offset := 0,
    objfile := "full memory" }

/-- Effects the `put_regions` loop body issues for one region `r`. -/
def region_effs (h : Host) (r : RegionM) : List Eff :=
  let rpath := regionPath h.pid r.start
  let m := h.mmap (Int.ofNat r.start)
  let ov := if m.base ≠ m.space then [Eff.createOverlaySpace m.base m.space] else []
  [Eff.createObj rpath] ++ ov
    ++ [Eff.setValue rpath "Range" (.rng m.space m.offset (Int.ofNat r.stop - Int.ofNat r.start))]
    ++ (match r.perms with
        | some p => [Eff.setValue rpath "Permissions" (.str p)]
        | none => [])
    ++ [Eff.setValue rpath "_readable" (.bool (r.perms.elim true (·.contains 'r'))),
        Eff.setValue rpath "_writable" (.bool (r.perms.elim true (·.contains 'w'))),
        Eff.setValue rpath "_executable" (.bool (r.perms.elim true (·.contains 'x'))),
        Eff.setValue rpath "Offset" (.str (pyHex r.offset)),
        Eff.setValue rpath "Object File" (.str r.objfile),
        Eff.insertObj rpath]

/-- Mirrors `put_regions()`: query the host (a raised exception inside
`get_regions` is swallowed, leaving the list empty), substitute the
full-memory fallback when nothing was found and a thread is selected,
write every region and retain exactly the keys written. -/
def put_regions (h : Host) (s : SessionState) : Except String (List Eff) := do
  let regions0 : List RegionM :=
    if should_query_regions h then (h.getRegions).getD [] else []
  let regions :=
    if regions0.length = 0 ∧ (h.selectedThread).isSome then [full_mem]
    else regions0
  let _ ← require_trace s
  return (regions.map (region_effs h)).flatten
    ++ [Eff.retainValues (memoryPath h.pid)
          (regions.map (fun r => regionKey r.start)) "elements"]

/-- Mirrors the `ghidra trace put-regions` command. -/
def ghidra_trace_put_regions (h : Host) (s : SessionState)
    (args : List String) : Except String (List Eff) := do
  if args.length ≠ 0 then
    .error "Usage: ghidra trace put-regions"
  else do
    let _ ← require_tx s
    put_regions h s

/-! ## wait-stopped utility (lines 2046-2072) -/

/-- State constants of the external lldb module, as name-value pairs;
modelled from the lldb public API (the spec treats lldb as an external
collaborator).  There is no attribute named `eStateRunnig`: the running
state constant is spelled `eStateRunning`. -/
def lldbStateConstants : List (String × Nat) :=
  [("eStateInvalid", 0), ("eStateUnloaded", 1), ("eStateConnected", 2),
   ("eStateAttaching", 3), ("eStateLaunching", 4), ("eStateStopped", 5),
   ("eStateRunning", 6), ("eStateStepping", 7), ("eStateCrashed", 8),
   ("eStateDetached", 9), ("eStateExited", 10), ("eStateSuspended", 11)]

/-- Attribute lookup on the lldb module for state constants; a missing
attribute is an `AttributeError` in Python, modelled as `none`. -/
def lldbAttr (name : String) : Option Nat :=
  (lldbStateConstants.find? (fun p => p.fst = name)).map Prod.snd

/-- Mirrors the spin loop of `ghidra_util_wait_stopped`.  `procs i` is
`util.get_process()` at the i-th poll (`none` when no process), and the
elapsed time after `i` sleeps is `i` tenths of a second against a
timeout of `timeout10` tenths.  Evaluating the loop condition reads
`lldb.eStateRunnig` from the lldb module, and after the loop the final
print reads `p.state`. -/
def wait_stopped_loop (procs : Nat → Option Nat) (timeout10 : Nat) :
    Nat → Nat → Except String String
  | 0, _ => .error "loop fuel exhausted"
  | fuel + 1, i =>
    match procs i with
    | none => .error "AttributeError: NoneType object has no attribute state"
    | some st =>
      match lldbAttr "eStateRunnig" with
      | none => .error "AttributeError: module lldb has no attribute eStateRunnig"
      | some c =>
        if st = c then
          if i + 1 > timeout10 then
            .error "Timed out waiting for thread to stop"
          else
            wait_stopped_loop procs timeout10 fuel (i + 1)
        else
          .ok "Finished wait"

/-- Mirrors the `ghidra util wait-stopped` command: optional timeout in
seconds (default 1), then the spin wait at 100ms per poll. -/
def ghidra_util_wait_stopped (procs : Nat → Option Nat)
    (args : List String) : Except String String := do
  let timeout ←
    match args with
    | [] => pure 1
    | [a] =>
      match a.toNat? with
      | some n => pure n
      | none => .error ("invalid literal for int: " ++ a)
    | _ => .error "Usage: ghidra util wait-stopped [SECONDS]"
  wait_stopped_loop procs (timeout * 10) (timeout * 10 + 2) 0

/-! ## Theorems -/

/-- C1, counterexample: `quantize_pages(4100, 8300)` is not
`(4096, 8192)`; rounding 8300 up to a 4096-byte page boundary gives
12288, not 8192. -/
theorem quantize_pages_example_refuted : quantize_pages 4100 8300 ≠ (4096, 8192) := by
  decide

/-- C1, amended: `quantize_pages(4100, 8300)` returns `(4096, 12288)`,
and in general `quantize_pages` returns the start rounded down to a
4096-byte page boundary (the greatest page multiple not above `start`)
and the end rounded up to a page boundary (the least page multiple not
below `end`). -/
theorem quantize_pages_rounds : quantize_pages 4100 8300 = (4096, 12288) ∧
    ∀ start end' : Int,
      (quantize_pages start end').1 % 4096 = 0 ∧
      (quantize_pages start end').1 ≤ start ∧
      start < (quantize_pages start end').1 + 4096 ∧
      (quantize_pages start end').2 % 4096 = 0 ∧
      end' ≤ (quantize_pages start end').2 ∧
      (quantize_pages start end').2 - 4096 < end' := by
  refine ⟨by decide, fun start end' => ?_⟩
  unfold quantize_pages PAGE_SIZE
  rw [Int.fdiv_eq_ediv _ (by norm_num), Int.fdiv_eq_ediv _ (by norm_num)]
  simp only
  omega

/-- C2: in the `putval` command path, an evaluated expression with a
valid address reaches `put_bytes` with the end offset computed as
`start + start + value.size`, which double-counts the start offset and
differs from `start + size` whenever `start` is nonzero. -/
theorem putval_end_double_counts
    (evv : String → Except String PutvalValue) (s : SessionState)
    (expr : String) (v : PutvalValue)
    (htr : s.trace = some ()) (htx : s.tx = some ())
    (hev : evv expr = .ok v) (hvalid : v.addrValid = true) :
    ghidra_trace_putval evv s [expr] =
      .ok (v.addrInt, v.addrInt + v.addrInt + v.size, true) ∧
    (v.addrInt ≠ 0 → v.addrInt + v.addrInt + v.size ≠ v.addrInt + v.size) := by
  constructor
  · simp [ghidra_trace_putval, require_tx, require_trace, htr, htx, hev, hvalid]
    rfl
  · intro h0
    omega

/-- C2 witness: a concrete evaluation with address 4096 and size 8
reaches `put_bytes` with end offset 8200 = 4096 + 4096 + 8. -/
theorem putval_end_double_counts_witness :
    ghidra_trace_putval (fun _ => .ok ⟨true, 4096, 8⟩)
      ⟨some (), some (), some ()⟩ ["x"] = .ok (4096, 8200, true) ∧
    ((4096 : Int) ≠ 0 → (4096 : Int) + 4096 + 8 ≠ 4096 + 8) :=
  putval_end_double_counts (fun _ => .ok ⟨true, 4096, 8⟩)
    ⟨some (), some (), some ()⟩ "x" ⟨true, 4096, 8⟩ rfl rfl rfl rfl

/-- C4: every session operation (with every outcome of its external
calls, including the partial-failure paths) preserves the strict
nesting of the session state — a live transaction implies a live trace,
a live trace implies a live connection — and resetting an outer
resource also resets everything nested inside it.  That at most one
connection, one trace and one transaction are live at a time is
enforced by the shape of `SessionState` itself (one optional slot
each). -/
theorem session_ops_preserve_nesting :
    (∀ (op : SessionOp) (s : SessionState),
      SessionInv s → SessionInv (session_step op s).1) ∧
    (∀ s : SessionState, (reset_client s).client = none ∧
      (reset_client s).trace = none ∧ (reset_client s).tx = none) ∧
    (∀ s : SessionState, (reset_trace s).trace = none ∧
      (reset_trace s).tx = none) ∧
    (∀ s : SessionState, (reset_tx s).tx = none) := by
  decide

/-- C4 witness: starting a transaction from the connected-and-traced
state keeps the invariant. -/
theorem session_ops_preserve_nesting_witness :
    SessionInv (session_step (.txStart true true) ⟨some (), some (), none⟩).1 :=
  session_ops_preserve_nesting.1 (.txStart true true) ⟨some (), some (), none⟩
    (by decide)

/-- C10: whenever the (possibly page-quantized) range handed to
`put_bytes` is empty or negative, the function succeeds immediately:
no read of target memory and no trace mutation is issued. -/
theorem put_bytes_empty_range (h : Host) (s : SessionState)
    (start end' : Int) (pages : Bool) (htr : s.trace = some ())
    (hrange : (effRange pages start end').2 - (effRange pages start end').1 ≤ 0) :
    put_bytes h s start end' pages = .ok [] := by
  unfold put_bytes
  rcases hq : effRange pages start end' with ⟨qs, qe⟩
  rw [hq] at hrange
  simp only at hrange
  simp [require_trace, htr, hrange]

/-- C10 witness: a pages=false `putmem`-style call with zero length
issues nothing; the host oracle here would fail any actual read. -/
theorem put_bytes_empty_range_witness :
    put_bytes
      { pid := 1, procRunning := false, selectedThread := none, frameId := 0,
        banks := [], rmapName := id, readMem := fun _ _ => none,
        mmap := fun o => ⟨"ram", "ram", o⟩, numModules := 0, probeOk := false,
        getRegions := none, arch := "x86_64", osabi := "linux",
        endian := "little" }
      ⟨some (), some (), some ()⟩ 4100 4100 false = .ok [] :=
  put_bytes_empty_range _ _ 4100 4100 false rfl (by decide)

/-! ### Decimal rendering lemmas (for path injectivity) -/

theorem decChar_toNat (d : Nat) (hd : d < 10) : (decChar d).toNat = 48 + d := by
  interval_cases d <;> decide

theorem decVal_append_one (cs : List Char) (c : Char) :
    decVal (cs ++ [c]) = 10 * decVal cs + (c.toNat - 48) := by
  simp [decVal, List.foldl_append]

theorem decVal_decReprAux : ∀ fuel n, n ≤ fuel →
    decVal (decReprAux fuel n) = n := by
  intro fuel
  induction fuel with
  | zero =>
    intro n hn
    interval_cases n
    simp [decReprAux, decVal]
  | succ f ih =>
    intro n hn
    by_cases h0 : n = 0
    · simp [decReprAux, h0, decVal]
    · have hlt : n / 10 < n := Nat.div_lt_self (Nat.pos_of_ne_zero h0) (by norm_num)
      have hle : n / 10 ≤ f := by omega
      simp only [decReprAux, h0, if_false]
      rw [decVal_append_one, ih _ hle, decChar_toNat _ (Nat.mod_lt n (by norm_num))]
      omega

theorem decVal_decRepr (n : Nat) : decVal (decRepr n) = n := by
  by_cases h0 : n = 0
  · simp [decRepr, h0, decVal]
  · simp only [decRepr, h0, if_false]
    exact decVal_decReprAux _ _ (Nat.le_succ n)

theorem decRepr_inj {m n : Nat} (h : decRepr m = decRepr n) : m = n := by
  have := congrArg decVal h
  rwa [decVal_decRepr, decVal_decRepr] at this

theorem decReprAux_digits : ∀ fuel n, ∀ c ∈ decReprAux fuel n, IsDigitCh c := by
  intro fuel
  induction fuel with
  | zero =>
    intro n c hc
    simp [decReprAux] at hc
  | succ f ih =>
    intro n c hc
    by_cases h0 : n = 0
    · simp [decReprAux, h0] at hc
    · simp only [decReprAux, h0, if_false, List.mem_append,
        List.mem_singleton] at hc
      rcases hc with hc | hc
      · exact ih _ c hc
      · subst hc
        constructor <;>
          rw [decChar_toNat _ (Nat.mod_lt n (by norm_num))] <;> omega

theorem decRepr_digits (n : Nat) : ∀ c ∈ decRepr n, IsDigitCh c := by
  by_cases h0 : n = 0
  · simp only [decRepr, h0, if_true]
    intro c hc
    simp only [List.mem_singleton] at hc
    subst hc
    decide
  · simp only [decRepr, h0, if_false]
    exact decReprAux_digits _ n

theorem digits_append_cancel :
    ∀ (xs ys : List Char) (c d : Char) (r s : List Char),
      (∀ a ∈ xs, IsDigitCh a) → (∀ a ∈ ys, IsDigitCh a) →
      ¬ IsDigitCh c → ¬ IsDigitCh d →
      xs ++ c :: r = ys ++ d :: s → xs = ys ∧ c :: r = d :: s := by
  intro xs
  induction xs with
  | nil =>
    intro ys c d r s _ hy hc hd heq
    cases ys with
    | nil => exact ⟨rfl, heq⟩
    | cons b ys' =>
      simp only [List.nil_append, List.cons_append, List.cons.injEq] at heq
      exact absurd (heq.1 ▸ hy b (by simp)) hc
  | cons a xs' ih =>
    intro ys c d r s hx hy hc hd heq
    cases ys with
    | nil =>
      simp only [List.cons_append, List.nil_append, List.cons.injEq] at heq
      exact absurd (heq.1 ▸ hx a (by simp)) hd
    | cons b ys' =>
      simp only [List.cons_append, List.cons.injEq] at heq
      obtain ⟨hab, htail⟩ := heq
      obtain ⟨h1, h2⟩ := ih ys' c d r s (fun x hx' => hx x (by simp [hx']))
        (fun x hy' => hy x (by simp [hy'])) hc hd htail
      exact ⟨by rw [hab, h1], h2⟩

theorem framePath_data (p t l : Nat) :
    (framePath p t l).data =
      "Processes".data ++ ("[".data ++ (decRepr p ++ ("]".data ++
        (".Threads".data ++ ("[".data ++ (decRepr t ++ ("]".data ++
        (".Stack".data ++ ("[".data ++ (decRepr l ++ "]".data)))))))))) := by
  simp [framePath, stackPath, threadPath, threadsPath, processPath, processKey,
        threadKey, frameKey, PROCESSES_PATH, decStr, String.data_append,
        List.append_assoc]

theorem framePath_inj {p t l p' t' l' : Nat}
    (h : framePath p t l = framePath p' t' l') : p = p' ∧ t = t' ∧ l = l' := by
  have hd := congrArg String.data h
  rw [framePath_data, framePath_data] at hd
  have h1 := List.append_cancel_left hd
  have h2 := List.append_cancel_left h1
  have h3 : decRepr p ++ (']' :: (".Threads".data ++ ("[".data ++ (decRepr t ++
      ("]".data ++ (".Stack".data ++ ("[".data ++ (decRepr l ++ "]".data)))))))) =
      decRepr p' ++ (']' :: (".Threads".data ++ ("[".data ++ (decRepr t' ++
      ("]".data ++ (".Stack".data ++ ("[".data ++ (decRepr l' ++ "]".data)))))))) := h2
  obtain ⟨hp, htl⟩ := digits_append_cancel _ _ _ _ _ _
    (decRepr_digits p) (decRepr_digits p') (by decide) (by decide) h3
  have h4 := (List.cons.injEq _ _ _ _).mp htl |>.2
  have h5 := List.append_cancel_left h4
  have h6 := List.append_cancel_left h5
  have h7 : decRepr t ++ (']' :: (".Stack".data ++ ("[".data ++
      (decRepr l ++ "]".data)))) =
      decRepr t' ++ (']' :: (".Stack".data ++ ("[".data ++
      (decRepr l' ++ "]".data)))) := h6
  obtain ⟨ht, htl2⟩ := digits_append_cancel _ _ _ _ _ _
    (decRepr_digits t) (decRepr_digits t') (by decide) (by decide) h7
  have h8 := (List.cons.injEq _ _ _ _).mp htl2 |>.2
  have h9 := List.append_cancel_left h8
  have h10 := List.append_cancel_left h9
  have h11 : decRepr l ++ (']' :: []) = decRepr l' ++ (']' :: []) := h10
  obtain ⟨hl, _⟩ := digits_append_cancel _ _ _ _ _ _
    (decRepr_digits l) (decRepr_digits l') (by decide) (by decide) h11
  exact ⟨decRepr_inj hp, decRepr_inj ht, decRepr_inj hl⟩

/-! ### Claim theorems (continued) -/

/-- C5: `data_to_reg_bytes` leaves a big-endian register payload
unchanged and reverses a little-endian one, so applying the inverse
transformation for the source order (the identity for big, a reversal
for little) reconstructs the original byte sequence for both supported
orders. -/
theorem data_to_reg_bytes_round_trip : ∀ bs : List Nat,
    data_to_reg_bytes ⟨lldb_eByteOrderBig, bs⟩ = .ok bs ∧
    data_to_reg_bytes ⟨lldb_eByteOrderLittle, bs⟩ = .ok bs.reverse ∧
    bs.reverse.reverse = bs :=
  fun bs => ⟨rfl, rfl, List.reverse_reverse bs⟩

/-- C7: the frame path for process 7, thread 3, frame level 0 is
exactly `Processes[7].Threads[3].Stack[0]`, and distinct
(pid, tid, level) triples always construct distinct paths. -/
theorem framePath_deterministic :
    framePath 7 3 0 = "Processes[7].Threads[3].Stack[0]" ∧
    ∀ p t l p' t' l' : Nat,
      framePath p t l = framePath p' t' l' → p = p' ∧ t = t' ∧ l = l' :=
  ⟨by decide, fun _ _ _ _ _ _ h => framePath_inj h⟩

/-- C7 witness: the injectivity direction applied at the concrete
triple (7, 3, 0). -/
theorem framePath_deterministic_witness : (7 : Nat) = 7 ∧ (3 : Nat) = 3 ∧ (0 : Nat) = 0 :=
  framePath_deterministic.2 7 3 0 7 3 0 rfl

/-- C3, counterexample: a mutating command invoked with no transaction
open but also no trace active fails with the outer missing-resource
error `No trace active`, which is not the NoTransaction-class error the
claim promises for every no-transaction invocation. -/
theorem putmem_no_trace_counterexample :
    ghidra_trace_putmem (fun _ => .ok 0) (fun _ => .ok 0) sampleHost
      ⟨some (), none, none⟩ ["0", "4096"] = .error "No trace active" ∧
    "No trace active" ≠ "No transaction" :=
  ⟨rfl, by decide⟩

/-- C3, amended: when a trace is active but no transaction is open,
every mutating trace command (putmem, putreg, set-value, retain-values,
create-obj and the put-* synchronizers) fails with the `No transaction`
error before issuing any mutation (an error result carries no effect
list at all); and invoking tx-start while a transaction is already open
fails with `Transaction already started`, leaving the state unchanged. -/
theorem mutating_commands_require_tx (s : SessionState)
    (htr : s.trace = some ()) (htx : s.tx = none) :
    (∀ (pe ev : String → Except String Int) (h : Host) (a l : String),
      ghidra_trace_putmem pe ev h s [a, l] = .error "No transaction") ∧
    (∀ (h : Host) (args : List String),
      ghidra_trace_putreg h s args = .error "No transaction") ∧
    (∀ (evv : String → Option String → Except String (Val × Option String))
      (p k v : String),
      ghidra_trace_set_value evv s [p, k, v] = .error "No transaction") ∧
    (∀ (kinds p : String) (ks : List String),
      ghidra_trace_retain_values kinds s (p :: ks) = .error "No transaction") ∧
    (∀ p : String, ghidra_trace_create_obj s [p] = .error "No transaction") ∧
    (∀ h : Host, ghidra_trace_put_processes h s [] = .error "No transaction") ∧
    (∀ h : Host, ghidra_trace_put_environment h s [] = .error "No transaction") ∧
    (∀ h : Host, ghidra_trace_put_regions h s [] = .error "No transaction") ∧
    (∀ (s2 : SessionState) (startOk : Bool), s2.tx = some () →
      ghidra_trace_txstart true startOk s2 =
        (s2, some "Transaction already started")) := by
  refine ⟨?_, ?_, ?_, ?_, ?_, ?_, ?_, ?_, ?_⟩
  · intro pe ev h a l
    simp [ghidra_trace_putmem, require_tx, require_trace, htr, htx]
    rfl
  · intro h args
    simp [ghidra_trace_putreg, require_tx, require_trace, htr, htx]
    rfl
  · intro evv p k v
    simp [ghidra_trace_set_value, require_tx, require_trace, htr, htx]
    rfl
  · intro kinds p ks
    simp [ghidra_trace_retain_values, require_tx, require_trace, htr, htx]
    rfl
  · intro p
    simp [ghidra_trace_create_obj, require_tx, require_trace, htr, htx]
    rfl
  · intro h
    simp [ghidra_trace_put_processes, require_tx, require_trace, htr, htx]
    rfl
  · intro h
    simp [ghidra_trace_put_environment, require_tx, require_trace, htr, htx]
    rfl
  · intro h
    simp [ghidra_trace_put_regions, require_tx, require_trace, htr, htx]
    rfl
  · intro s2 startOk htx2
    simp [ghidra_trace_txstart, htx2]

/-- C3 witness: create-obj in the traced-but-no-transaction state fails
with the `No transaction` error. -/
theorem mutating_commands_require_tx_witness :
    ghidra_trace_create_obj ⟨some (), some (), none⟩ ["Processes[0]"] =
      .error "No transaction" :=
  (mutating_commands_require_tx ⟨some (), some (), none⟩ rfl
    rfl).2.2.2.2.1 "Processes[0]"

/-- C6: when the host yields no memory regions (queries unsupported,
suppressed by the probe, failing, or returning an empty list) and a
thread is currently selected, `put_regions` writes exactly one region
object — the full-address-space fallback — and retains exactly its
key, so the region container is not left empty. -/
theorem put_regions_fallback (h : Host) (s : SessionState)
    (htr : s.trace = some ())
    (hempty : should_query_regions h = false ∨ h.getRegions = none ∨
      h.getRegions = some [])
    (hthread : (h.selectedThread).isSome) :
    put_regions h s = .ok (region_effs h full_mem ++
      [Eff.retainValues (memoryPath h.pid) [regionKey full_mem.start]
        "elements"]) := by
  have hreg0 : (if should_query_regions h then (h.getRegions).getD [] else [])
      = ([] : List RegionM) := by
    rcases hempty with h1 | h1 | h1 <;> simp [h1]
  simp [put_regions, hreg0, hthread, require_trace, htr]

/-- C6 witness: a host with no modules, no region list and thread 3
selected produces the single fallback region write. -/
theorem put_regions_fallback_witness :
    put_regions sampleHost ⟨some (), some (), some ()⟩ =
      .ok (region_effs sampleHost full_mem ++
        [Eff.retainValues (memoryPath sampleHost.pid)
          [regionKey full_mem.start] "elements"]) :=
  put_regions_fallback sampleHost ⟨some (), some (), some ()⟩ rfl
    (Or.inr (Or.inl rfl)) rfl

/-- C8: evaluating the spin-loop condition reads `lldb.eStateRunnig`,
an attribute the lldb module does not define (the constant is spelled
`eStateRunning`), so on a process that stays running the command fails
immediately with an AttributeError and never reaches the
`Timed out waiting for thread to stop` error the claim (and the
docstring) promise. -/
theorem wait_stopped_misspelled_constant :
    ghidra_util_wait_stopped (fun _ => some 6) [] =
      .error "AttributeError: module lldb has no attribute eStateRunnig" ∧
    ghidra_util_wait_stopped (fun _ => some 6) [] ≠
      .error "Timed out waiting for thread to stop" := by
  constructor
  · rfl
  · intro hcontra
    have h1 : ghidra_util_wait_stopped (fun _ => some 6) [] =
        Except.error "AttributeError: module lldb has no attribute eStateRunnig" := rfl
    have h2 := h1.symm.trans hcontra
    injection h2 with h3
    exact absurd h3 (by decide)

/-- C9: with four arguments `ADDRESS LENGTH STATE PAGES`, the
putmem-state argument ladder computes the pages flag by evaluating the
third argument (the STATE string), and the supplied fourth argument is
never read: the command's behaviour is identical for any value of it. -/
theorem putmem_state_pages_from_state (pe ev : String → Except String Int)
    (h : Host) (s : SessionState) (a l st d : String) (v : Int)
    (hev : ev st = .ok v) :
    putmem_state_args ev [a, l, st, d] = .ok (a, l, st, v != 0) ∧
    ∀ d', ghidra_trace_putmem_state pe ev h s [a, l, st, d] =
      ghidra_trace_putmem_state pe ev h s [a, l, st, d'] := by
  constructor
  · simp [putmem_state_args, hev]
  · intro d'
    rfl

/-- C9 witness: the pages flag of `putmem-state 0 4096 known 0` comes
from evaluating the string `known`, not the literal `0` in fourth
position. -/
theorem putmem_state_pages_from_state_witness :
    putmem_state_args (fun _ => .ok 1) ["0", "4096", "known", "0"] =
      .ok ("0", "4096", "known", true) ∧
    ∀ d', ghidra_trace_putmem_state (fun _ => .ok 0) (fun _ => .ok 1)
        sampleHost ⟨some (), some (), some ()⟩ ["0", "4096", "known", "0"] =
      ghidra_trace_putmem_state (fun _ => .ok 0) (fun _ => .ok 1)
        sampleHost ⟨some (), some (), some ()⟩ ["0", "4096", "known", d'] :=
  putmem_state_pages_from_state (fun _ => .ok 0) (fun _ => .ok 1) sampleHost
    ⟨some (), some (), some ()⟩ "0" "4096" "known" "0" 1 rfl

end GhidraLldb
